import Mathlib

/-!
# The `info` command of the Bluetooth Swiss Army Knife

A shallow embedding of `apps/wireless/bluetooth/btsak/btsak_info.c`
(`btsak_info_showusage` and `btsak_cmd_info`) and theorems about it.

Conventions of the embedding

* A C string is a Lean `String`, one `Char` per C `char`; the terminating NUL
  is implicit (it is the end of the list of characters).
* The storage of the local variable `btreq` is a list of bytes (`List Nat`).
* The two output streams, the calls made to the collaborators
  (`btsak_socket`, `ioctl`, `close`) and the call of `exit` are recorded in a
  `World` value, which starts empty and is threaded through the statements.
* What the collaborators answer is given by an `Env`.
* Sizes, offsets and request codes that come from headers outside this file
  (`bt_hci.h`, `bt_ioctl.h`) are the fields of `Headers`.
-/

namespace Btsak

/-! ## Data model -/

/-- Constants of the headers `nuttx/wireless/bt_hci.h` and
`nuttx/wireless/bt_ioctl.h` that the command uses. The headers are not part of
the tree, so every one of them is a parameter. -/
structure Headers where
  /-- Size of the array `btr_name` -/
  HCI_DEVNAME_SIZE : Nat
  /-- Value of `sizeof(struct btreq_s)`, the type of the local `btreq` -/
  sizeof_btreq_s : Nat
  /-- Value of `sizeof(struct bt_advertisebtreq_s)`, the length given to `memset` -/
  sizeof_bt_advertisebtreq_s : Nat
  /-- Offset of the member `btr_name` in `struct btreq_s` -/
  offsetof_btr_name : Nat
  /-- Offset of the member `btr_bdaddr.val` in `struct btreq_s` -/
  offsetof_btr_bdaddr : Nat
  /-- The request code `SIOCGBTINFO` -/
  SIOCGBTINFO : Nat
  deriving DecidableEq, Repr

/-- The command context `struct btsak_s` (declared in `btsak.h`, which is not
part of the tree): the members that `btsak_cmd_info` reads through the
parameter `btsak`, under the names the source uses. The ten members printed
with `%04x` and `%u` are natural numbers. -/
structure btsak_s where
  progname : String
  ifname : String
  btr_flags : Nat
  btr_num_cmd : Nat
  btri_num_acl : Nat
  btri_num_sco : Nat
  btr_max_acl : Nat
  btr_max_sco : Nat
  btr_acl_mtu : Nat
  btr_sco_mtu : Nat
  btr_link_policy : Nat
  btr_packet_type : Nat
  deriving DecidableEq, Repr

/-- A call made to one of the collaborators of the command. -/
inductive Effect where
  /-- The call `btsak_socket(btsak)` -/
  | btsak_socket : Effect
  /-- The call `ioctl(sockfd, req, &btreq)`, with the bytes of `btreq` at the call -/
  | ioctl (sockfd : Int) (req : Nat) (arg : List Nat) : Effect
  /-- The call `close(sockfd)` -/
  | close (sockfd : Int) : Effect
  deriving DecidableEq, Repr

/-- Everything the command does that can be observed from outside. -/
structure World where
  /-- Characters written to `stdout` -/
  stdout : String
  /-- Characters written to `stderr` -/
  stderr : String
  /-- Calls made to the collaborators, oldest first -/
  calls : List Effect
  /-- The value `some c` once `exit(c)` has been called -/
  exited : Option Int
  deriving DecidableEq, Repr

/-- What a call of `ioctl` answers: the returned value, the value of `errno`
after the call and the bytes of the record after the call. -/
structure IoctlReply where
  ret : Int
  errno : Int
  arg : List Nat
  deriving DecidableEq, Repr

/-- The answers of the collaborators. -/
structure Env where
  /-- The handle returned by `btsak_socket(btsak)` -/
  btsak_socket : btsak_s → Int
  /-- The answer of `ioctl(sockfd, req, &btreq)` -/
  ioctl : Int → Nat → List Nat → IoctlReply

/-- Value of `EXIT_SUCCESS`. -/
def EXIT_SUCCESS : Int := 0

/-- The world before the command runs. -/
def World.init : World := ⟨"", "", [], none⟩

/-! ## Library functions -/

/-- Appends `s` to `stdout`: a `printf` whose conversions are already done. -/
def printf (s : String) (w : World) : World :=
  { w with stdout := w.stdout ++ s }

/-- Appends `s` to `stderr`: a `fprintf(stderr, ...)` whose conversions are
already done. -/
def fprintf_stderr (s : String) (w : World) : World :=
  { w with stderr := w.stderr ++ s }

/-- Records a call to a collaborator. -/
def World.call (e : Effect) (w : World) : World :=
  { w with calls := w.calls ++ [e] }

/-- The C function `exit`: the process ends with the given code. -/
def World.exit (code : Int) (w : World) : World :=
  { w with exited := some code }

/-- Conversion `%0<width>x`: lower-case hexadecimal, padded on the left with
zeros up to `width` characters. -/
def fmt_0x (width n : Nat) : String :=
  let ds := Nat.toDigits 16 n
  String.mk (List.replicate (width - ds.length) '0' ++ ds)

/-- Conversion `%u`. -/
def fmt_u (n : Nat) : String := toString n

/-- Conversion `%d`. -/
def fmt_d (i : Int) : String := toString i

/-- The C function `memset(s, c, n)` on the bytes of an object: the first `n`
bytes become `c` converted to `unsigned char`. Bytes past the end of the
object are not part of the model. -/
def memset : List Nat → Nat → Nat → List Nat
  | [], _, _ => []
  | b :: bs, _, 0 => b :: bs
  | _ :: bs, c, n + 1 => (c % 256) :: memset bs c n

/-- Bytes that `strncpy(dest, src, n)` writes to `dest[0..n)`: the characters
of `src` up to its terminator, then NUL bytes, `n` bytes in all. When `src` has
`n` characters or more, no NUL byte is written. -/
def strncpy_bytes : List Char → Nat → List Nat
  | _, 0 => []
  | [], n + 1 => 0 :: strncpy_bytes [] n
  | c :: cs, n + 1 =>
    if c.toNat = 0 then 0 :: strncpy_bytes [] n else c.toNat :: strncpy_bytes cs n

/-- Writes `data` into the object `mem` from offset `off` on. Bytes past the
end of the object are not part of the model. -/
def store : List Nat → Nat → List Nat → List Nat
  | [], _, _ => []
  | m :: ms, 0, [] => m :: ms
  | _ :: ms, 0, d :: ds => d :: store ms 0 ds
  | m :: ms, off + 1, ds => m :: store ms off ds

/-- The call `strncpy(btreq.btr_name, src, n)` on the bytes of `btreq`. -/
def strncpy (H : Headers) (btreq : List Nat) (src : String) (n : Nat) : List Nat :=
  store btreq H.offsetof_btr_name (strncpy_bytes src.toList n)

/-- The member `btr_name` of a record: `HCI_DEVNAME_SIZE` bytes from its offset. -/
def btr_name (H : Headers) (btreq : List Nat) : List Nat :=
  (btreq.drop H.offsetof_btr_name).take H.HCI_DEVNAME_SIZE

/-- The expression `btreq.btr_bdaddr.val[i]`, of type `uint8_t`. -/
def btr_bdaddr_val (H : Headers) (btreq : List Nat) (i : Nat) : Nat :=
  (btreq.getD (H.offsetof_btr_bdaddr + i) 0) % 256

/-! ## The source -/

/-- The function `btsak_info_showusage`: writes the usage text to `stderr` and
calls `exit(exitcode)`. -/
def btsak_info_showusage (progname cmd : String) (exitcode : Int) (w : World) : World :=
  let w := fprintf_stderr (cmd ++ ":\tEnable security (encryption) for a connection:\n") w
  let w := fprintf_stderr
    "\tIf device is paired, key encryption will be enabled. If the link\n" w
  let w := fprintf_stderr
    "\tis already encrypted with sufficiently strong key this function\n" w
  let w := fprintf_stderr
    "\tdoes nothing.\n\n" w
  let w := fprintf_stderr
    "\tIf the device is not paired pairing will be initiated. If the device\n" w
  let w := fprintf_stderr
    "\tis paired and keys are too weak but input output capabilities allow\n" w
  let w := fprintf_stderr
    "\tfor strong enough keys pairing will be initiated.\n\n" w
  let w := fprintf_stderr
    "\tThis function may return error if required level of security is not\n" w
  let w := fprintf_stderr
    "\tpossible to achieve due to local or remote device limitation (eg input\n" w
  let w := fprintf_stderr
    "\toutput capabilities).\n\n" w
  let w := fprintf_stderr "Usage:\n\n" w
  let w := fprintf_stderr
    ("\t" ++ progname ++ " <ifname> " ++ cmd ++ " [-h] <addr> <addr-type> <level>\n") w
  let w := fprintf_stderr
    "\nWhere:\n\n" w
  let w := fprintf_stderr
    "\t<addr>\t- The 6-byte address of the connected peer\n" w
  let w := fprintf_stderr
    "\t<addr-type>\t- Either \"public\" or \"random\"\n" w
  let w := fprintf_stderr
    "\t<level>\t- Security level, on of:\n\n" w
  let w := fprintf_stderr
    "\t\tlow\t- No encryption and no authentication\n" w
  let w := fprintf_stderr
    "\t\tmedium\t- Encryption and no authentication (no MITM)\n" w
  let w := fprintf_stderr
    "\t\thigh\t- Encryption and authentication (MITM)\n" w
  let w := fprintf_stderr
    "\t\tfips\t- Authenticated LE secure connections and encryption\n" w
  w.exit exitcode

/-- The statements of the branch of `btsak_cmd_info` taken when `ioctl` did
not fail (lines 156 to 172): the status block. `btreq` is the record after the
call. -/
def print_status (H : Headers) (btsak : btsak_s) (btreq : List Nat) (w : World) : World :=
  let w := printf ("Device: " ++ btsak.ifname ++ "\n") w
  let w := printf ("BDAddr: " ++ fmt_0x 2 (btr_bdaddr_val H btreq 0) ++ ":"
      ++ fmt_0x 2 (btr_bdaddr_val H btreq 1) ++ ":"
      ++ fmt_0x 2 (btr_bdaddr_val H btreq 2) ++ ":"
      ++ fmt_0x 2 (btr_bdaddr_val H btreq 3) ++ ":"
      ++ fmt_0x 2 (btr_bdaddr_val H btreq 4) ++ ":"
      ++ fmt_0x 2 (btr_bdaddr_val H btreq 5) ++ "\n") w
  let w := printf ("Flags:  " ++ fmt_0x 4 btsak.btr_flags ++ "\n") w
  let w := printf ("Free:   " ++ fmt_u btsak.btr_num_cmd ++ "\n") w
  let w := printf ("  ACL:  " ++ fmt_u btsak.btri_num_acl ++ "\n") w
  let w := printf ("  SCO:  " ++ fmt_u btsak.btri_num_sco ++ "\n") w
  let w := printf "Max:\n" w
  let w := printf ("  ACL:  " ++ fmt_u btsak.btr_max_acl ++ "\n") w
  let w := printf ("  SCO:  " ++ fmt_u btsak.btr_max_sco ++ "\n") w
  let w := printf "MTU:\n" w
  let w := printf ("  ACL:  " ++ fmt_u btsak.btr_acl_mtu ++ "\n") w
  let w := printf ("  SCO:  " ++ fmt_u btsak.btr_sco_mtu ++ "\n") w
  let w := printf ("Policy: " ++ fmt_u btsak.btr_link_policy ++ "\n") w
  let w := printf ("Type:   " ++ fmt_u btsak.btr_packet_type ++ "\n") w
  w

/-- The function `btsak_cmd_info`. `stack` is what the storage of the local
`btreq` holds when the function is entered; the result is the world when the
function returns or the process has exited. -/
def btsak_cmd_info (H : Headers) (env : Env) (stack : List Nat)
    (btsak : btsak_s) (argc : Int) (argv : List String) : World :=
  let w := World.init
  -- Check for help
  if argc > 1 ∧ argv[1]? = some "-h" then
    btsak_info_showusage btsak.progname (argv.getD 0 "") EXIT_SUCCESS w
  else
    let btreq := memset stack 0 H.sizeof_bt_advertisebtreq_s
    let btreq := strncpy H btreq btsak.ifname H.HCI_DEVNAME_SIZE
    let sockfd := env.btsak_socket btsak
    let w := w.call Effect.btsak_socket
    let w :=
      if sockfd ≥ 0 then
        let r := env.ioctl sockfd H.SIOCGBTINFO btreq
        let w := w.call (Effect.ioctl sockfd H.SIOCGBTINFO btreq)
        if r.ret < 0 then
          fprintf_stderr ("ERROR:  ioctl(SIOCGBTINFO) failed: " ++ fmt_d r.errno ++ "\n") w
        else
          print_status H btsak r.arg w
      else w
    w.call (Effect.close sockfd)

/-! ## Vocabulary of the theorems -/

/-- The bytes of `btreq` when `ioctl` is called: the storage after the
`memset` and the `strncpy` of lines 142 and 143. -/
def ioctl_request (H : Headers) (stack : List Nat) (btsak : btsak_s) : List Nat :=
  strncpy H (memset stack 0 H.sizeof_bt_advertisebtreq_s) btsak.ifname H.HCI_DEVNAME_SIZE

/-- The answer of the environment to the one `ioctl` call of the command. -/
def ioctl_reply (H : Headers) (env : Env) (stack : List Nat) (btsak : btsak_s) : IoctlReply :=
  env.ioctl (env.btsak_socket btsak) H.SIOCGBTINFO (ioctl_request H stack btsak)

/-- Recognises a call of the socket helper. -/
def Effect.isSocket : Effect → Bool
  | Effect.btsak_socket => true
  | _ => false

/-- Recognises a call of `ioctl`. -/
def Effect.isIoctl : Effect → Bool
  | Effect.ioctl _ _ _ => true
  | _ => false

/-- Recognises a call of `close`. -/
def Effect.isClose : Effect → Bool
  | Effect.close _ => true
  | _ => false

/-- A C string holds no NUL character before its terminator. -/
def IsCString (s : String) : Prop := ∀ c ∈ s.toList, c.toNat ≠ 0

instance (s : String) : Decidable (IsCString s) := by
  unfold IsCString; infer_instance

/-- Value of a lower-case hexadecimal digit. -/
def hexval (c : Char) : Option Nat :=
  if '0' ≤ c ∧ c ≤ '9' then some (c.toNat - '0'.toNat)
  else if 'a' ≤ c ∧ c ≤ 'f' then some (c.toNat - 'a'.toNat + 10)
  else none

/-- Value of an octet written as two lower-case hexadecimal digits. -/
def parse_octet (hi lo : Char) : Option Nat :=
  match hexval hi, hexval lo with
  | some h, some l => some (16 * h + l)
  | _, _ => none

/-- Reads a text of the shape `xx:xx:xx:xx:xx:xx` back into its six octets. -/
def parse_bdaddr (s : List Char) : Option (List Nat) :=
  match s with
  | [a0, a1, s1, b0, b1, s2, c0, c1, s3, d0, d1, s4, e0, e1, s5, f0, f1] =>
    if s1 = ':' ∧ s2 = ':' ∧ s3 = ':' ∧ s4 = ':' ∧ s5 = ':' then
      match parse_octet a0 a1, parse_octet b0 b1, parse_octet c0 c1,
        parse_octet d0 d1, parse_octet e0 e1, parse_octet f0 f1 with
      | some a, some b, some c, some d, some e, some f => some [a, b, c, d, e, f]
      | _, _, _, _, _, _ => none
    else none
  | _ => none

/-! ## Example inputs -/

/-- Header values used in the examples: a record of 56 bytes that starts with
a name of 32 bytes, followed by the address. -/
def exHeaders : Headers :=
  { HCI_DEVNAME_SIZE := 32, sizeof_btreq_s := 56, sizeof_bt_advertisebtreq_s := 56,
    offsetof_btr_name := 0, offsetof_btr_bdaddr := 32, SIOCGBTINFO := 1 }

/-- A context for the interface `bnep0`. -/
def exContext : btsak_s :=
  { progname := "bt", ifname := "bnep0", btr_flags := 1, btr_num_cmd := 8, btri_num_acl := 1,
    btri_num_sco := 0, btr_max_acl := 4, btr_max_sco := 1, btr_acl_mtu := 672,
    btr_sco_mtu := 64, btr_link_policy := 0, btr_packet_type := 0 }

/-- Storage that holds the byte `0xaa` everywhere. -/
def exStack : List Nat := List.replicate 56 0xaa

/-- An environment whose socket helper fails with `-1`. -/
def exEnvNoSocket : Env :=
  { btsak_socket := fun _ => -1, ioctl := fun _ _ a => ⟨0, 0, a⟩ }

/-- An environment whose socket helper returns the handle 3 and whose `ioctl`
fails with `errno` 5. -/
def exEnvIoctlFails : Env :=
  { btsak_socket := fun _ => 3, ioctl := fun _ _ a => ⟨-1, 5, a⟩ }

/-- An environment whose socket helper returns the handle 3 and whose `ioctl`
succeeds and stores the address `00 11 22 33 44 55` after the 32 bytes of the
name. -/
def exEnvOk : Env :=
  { btsak_socket := fun _ => 3,
    ioctl := fun _ _ a => ⟨0, 0, a.take 32 ++ [0x00, 0x11, 0x22, 0x33, 0x44, 0x55] ++ a.drop 38⟩ }

/-- The context of `exContext` with an interface name of 39 characters. -/
def exContextLongName : btsak_s :=
  { exContext with ifname := "bluetooth-controller-interface-number-0" }

/-- The headers of `exHeaders` when `struct bt_advertisebtreq_s` holds the
name only: 32 bytes, for a record of 56 bytes. -/
def exHeadersShortMemset : Headers :=
  { exHeaders with sizeof_bt_advertisebtreq_s := 32 }

/-- A context for `bnep0` whose members differ from what the controller
answers in `exEnvScenario`. -/
def exContextOther : btsak_s :=
  { progname := "bt", ifname := "bnep0", btr_flags := 0xbeef, btr_num_cmd := 70,
    btri_num_acl := 71, btri_num_sco := 72, btr_max_acl := 73, btr_max_sco := 74,
    btr_acl_mtu := 75, btr_sco_mtu := 76, btr_link_policy := 77, btr_packet_type := 78 }

/-- An environment whose `ioctl` succeeds and answers, after the 32 bytes of
the name: the address `00 11 22 33 44 55`, then as little-endian 16-bit values
the flags `0x0001`, 8 free buffers, 1 and 0 active ACL and SCO connections,
at most 4 and 1 of them, the MTUs 672 and 64, the policy 0 and the packet
type 0. -/
def exEnvScenario : Env :=
  { btsak_socket := fun _ => 3,
    ioctl := fun _ _ a => ⟨0, 0, a.take 32 ++
      [0x00, 0x11, 0x22, 0x33, 0x44, 0x55, 0x01, 0x00, 8, 0, 1, 0, 0, 0, 4, 0, 1, 0,
       0xa0, 0x02, 64, 0, 0, 0]⟩ }

/-! ## Control flow -/

/-- The test of line 135 succeeds when `argv[1]` is `-h`. -/
theorem help_taken (argv : List String) (h : argv[1]? = some "-h") :
    ((argv.length : Int) > 1 ∧ argv[1]? = some "-h") := by
  refine ⟨?_, h⟩
  have : 1 < argv.length := by
    by_contra hc
    rw [List.getElem?_eq_none (by omega)] at h
    exact absurd h (by simp)
  exact_mod_cast this

/-- The test of line 135 fails when `argv[1]` is not `-h`. -/
theorem help_not_taken (argv : List String) (h : argv[1]? ≠ some "-h") :
    ¬ ((argv.length : Int) > 1 ∧ argv[1]? = some "-h") := fun hc => h hc.2

/-- With `-h` the command is the usage reporter. -/
theorem cmd_info_help (H : Headers) (env : Env) (stack : List Nat) (btsak : btsak_s)
    (argv : List String) (h : argv[1]? = some "-h") :
    btsak_cmd_info H env stack btsak argv.length argv
      = btsak_info_showusage btsak.progname (argv.getD 0 "") EXIT_SUCCESS World.init := by
  unfold btsak_cmd_info
  simp only [if_pos (help_taken argv h)]

set_option maxRecDepth 100000 in
/-- The world the usage reporter leaves behind. -/
theorem showusage_eq (p c : String) (e : Int) :
    btsak_info_showusage p c e World.init =
      ⟨"",
       c ++ ":\tEnable security (encryption) for a connection:\n\tIf device is paired, key encryption will be enabled. If the link\n\tis already encrypted with sufficiently strong key this function\n\tdoes nothing.\n\n\tIf the device is not paired pairing will be initiated. If the device\n\tis paired and keys are too weak but input output capabilities allow\n\tfor strong enough keys pairing will be initiated.\n\n\tThis function may return error if required level of security is not\n\tpossible to achieve due to local or remote device limitation (eg input\n\toutput capabilities).\n\nUsage:\n\n\t" ++ p ++ " <ifname> " ++ c ++ " [-h] <addr> <addr-type> <level>\n\nWhere:\n\n\t<addr>\t- The 6-byte address of the connected peer\n\t<addr-type>\t- Either \"public\" or \"random\"\n\t<level>\t- Security level, on of:\n\n\t\tlow\t- No encryption and no authentication\n\t\tmedium\t- Encryption and no authentication (no MITM)\n\t\thigh\t- Encryption and authentication (MITM)\n\t\tfips\t- Authenticated LE secure connections and encryption\n",
       [], some e⟩ := by
  simp only [btsak_info_showusage, fprintf_stderr, World.init, World.exit, World.mk.injEq,
    true_and, and_true]
  simp only [String.append_assoc, String.empty_append]
  rfl

/-- Without `-h`, when the socket helper fails. -/
theorem cmd_info_failed_socket (H : Headers) (env : Env) (stack : List Nat) (btsak : btsak_s)
    (argv : List String) (h : argv[1]? ≠ some "-h") (hs : env.btsak_socket btsak < 0) :
    btsak_cmd_info H env stack btsak argv.length argv
      = ⟨"", "", [Effect.btsak_socket, Effect.close (env.btsak_socket btsak)], none⟩ := by
  unfold btsak_cmd_info
  simp only [if_neg (help_not_taken argv h)]
  have : ¬ (env.btsak_socket btsak ≥ 0) := by omega
  simp [this, World.call, World.init]

/-- Without `-h`, when the socket helper succeeds and `ioctl` fails. -/
theorem cmd_info_failed_ioctl (H : Headers) (env : Env) (stack : List Nat) (btsak : btsak_s)
    (argv : List String) (h : argv[1]? ≠ some "-h") (hs : 0 ≤ env.btsak_socket btsak)
    (hr : (ioctl_reply H env stack btsak).ret < 0) :
    btsak_cmd_info H env stack btsak argv.length argv
      = ⟨"",
         "ERROR:  ioctl(SIOCGBTINFO) failed: " ++ fmt_d (ioctl_reply H env stack btsak).errno ++ "\n",
         [Effect.btsak_socket,
          Effect.ioctl (env.btsak_socket btsak) H.SIOCGBTINFO (ioctl_request H stack btsak),
          Effect.close (env.btsak_socket btsak)],
         none⟩ := by
  unfold btsak_cmd_info
  simp only [if_neg (help_not_taken argv h)]
  unfold ioctl_reply ioctl_request at hr
  simp [hs, hr, World.call, World.init, fprintf_stderr, ioctl_request, ioctl_reply]

/-- The characters the status block writes to `stdout`. -/
theorem print_status_eq (H : Headers) (btsak : btsak_s) (btreq : List Nat) (cs : List Effect) :
    print_status H btsak btreq ⟨"", "", cs, none⟩ =
      ⟨"Device: " ++ btsak.ifname ++ "\nBDAddr: " ++ fmt_0x 2 (btr_bdaddr_val H btreq 0) ++ ":"
        ++ fmt_0x 2 (btr_bdaddr_val H btreq 1) ++ ":" ++ fmt_0x 2 (btr_bdaddr_val H btreq 2) ++ ":"
        ++ fmt_0x 2 (btr_bdaddr_val H btreq 3) ++ ":" ++ fmt_0x 2 (btr_bdaddr_val H btreq 4) ++ ":"
        ++ fmt_0x 2 (btr_bdaddr_val H btreq 5)
        ++ "\nFlags:  " ++ fmt_0x 4 btsak.btr_flags
        ++ "\nFree:   " ++ fmt_u btsak.btr_num_cmd
        ++ "\n  ACL:  " ++ fmt_u btsak.btri_num_acl
        ++ "\n  SCO:  " ++ fmt_u btsak.btri_num_sco
        ++ "\nMax:\n  ACL:  " ++ fmt_u btsak.btr_max_acl
        ++ "\n  SCO:  " ++ fmt_u btsak.btr_max_sco
        ++ "\nMTU:\n  ACL:  " ++ fmt_u btsak.btr_acl_mtu
        ++ "\n  SCO:  " ++ fmt_u btsak.btr_sco_mtu
        ++ "\nPolicy: " ++ fmt_u btsak.btr_link_policy
        ++ "\nType:   " ++ fmt_u btsak.btr_packet_type ++ "\n",
       "", cs, none⟩ := by
  simp only [print_status, printf, World.mk.injEq, true_and, and_true]
  simp only [String.append_assoc, String.empty_append]
  rfl

/-- Without `-h`, when the socket helper and `ioctl` both succeed. -/
theorem cmd_info_success (H : Headers) (env : Env) (stack : List Nat) (btsak : btsak_s)
    (argv : List String) (h : argv[1]? ≠ some "-h") (hs : 0 ≤ env.btsak_socket btsak)
    (hr : 0 ≤ (ioctl_reply H env stack btsak).ret) :
    btsak_cmd_info H env stack btsak argv.length argv
      = (print_status H btsak (ioctl_reply H env stack btsak).arg
          ⟨"", "", [Effect.btsak_socket,
            Effect.ioctl (env.btsak_socket btsak) H.SIOCGBTINFO (ioctl_request H stack btsak)],
            none⟩).call (Effect.close (env.btsak_socket btsak)) := by
  unfold btsak_cmd_info
  simp only [if_neg (help_not_taken argv h)]
  unfold ioctl_reply ioctl_request at hr
  have hr2 : ¬ ((env.ioctl (env.btsak_socket btsak) H.SIOCGBTINFO
      (strncpy H (memset stack 0 H.sizeof_bt_advertisebtreq_s) btsak.ifname
        H.HCI_DEVNAME_SIZE)).ret < 0) := by omega
  simp [hs, hr2, World.call, World.init, ioctl_request, ioctl_reply]

/-- The calls of a run without `-h`. -/
theorem cmd_info_calls (H : Headers) (env : Env) (stack : List Nat) (btsak : btsak_s)
    (argv : List String) (h : argv[1]? ≠ some "-h") :
    (btsak_cmd_info H env stack btsak argv.length argv).calls =
      (if 0 ≤ env.btsak_socket btsak then
        [Effect.btsak_socket,
         Effect.ioctl (env.btsak_socket btsak) H.SIOCGBTINFO (ioctl_request H stack btsak),
         Effect.close (env.btsak_socket btsak)]
      else [Effect.btsak_socket, Effect.close (env.btsak_socket btsak)])
    ∧ (btsak_cmd_info H env stack btsak argv.length argv).exited = none := by
  by_cases hs : 0 ≤ env.btsak_socket btsak
  · rw [if_pos hs]
    by_cases hr : (ioctl_reply H env stack btsak).ret < 0
    · rw [cmd_info_failed_ioctl H env stack btsak argv h hs hr]
      exact ⟨rfl, rfl⟩
    · rw [cmd_info_success H env stack btsak argv h hs (by omega), print_status_eq]
      exact ⟨rfl, rfl⟩
  · rw [if_neg hs, cmd_info_failed_socket H env stack btsak argv h (by omega)]
    exact ⟨rfl, rfl⟩

/-! ## Memory -/

/-- A store keeps the size of the object. -/
theorem store_length (mem : List Nat) (off : Nat) (d : List Nat) :
    (store mem off d).length = mem.length := by
  induction mem generalizing off d with
  | nil => simp [store]
  | cons m ms ih =>
    cases off with
    | zero =>
      cases d with
      | nil => simp [store]
      | cons x xs => simp [store, ih]
    | succ k => simp [store, ih]

/-- Storing nothing changes nothing. -/
theorem store_nil_data (mem : List Nat) (off : Nat) : store mem off [] = mem := by
  induction mem generalizing off with
  | nil => simp [store]
  | cons m ms ih =>
    cases off with
    | zero => simp [store]
    | succ k => simp [store, ih]

/-- A store leaves the bytes before its offset alone. -/
theorem store_getElem?_of_lt (mem : List Nat) (off : Nat) (d : List Nat) (i : Nat)
    (h : i < off) : (store mem off d)[i]? = mem[i]? := by
  induction mem generalizing off i with
  | nil => simp [store]
  | cons m ms ih =>
    cases off with
    | zero => omega
    | succ k =>
      cases i with
      | zero => simp [store]
      | succ j => simpa [store] using ih k j (by omega)

/-- A store leaves the bytes after its data alone. -/
theorem store_getElem?_of_ge (mem : List Nat) (off : Nat) (d : List Nat) (i : Nat)
    (h : off + d.length ≤ i) : (store mem off d)[i]? = mem[i]? := by
  induction mem generalizing off d i with
  | nil => simp [store]
  | cons m ms ih =>
    cases off with
    | zero =>
      cases d with
      | nil => simp [store]
      | cons x xs =>
        cases i with
        | zero => simp at h
        | succ j =>
          simp only [store, List.getElem?_cons_succ]
          exact ih 0 xs j (by simp at h ⊢; omega)
    | succ k =>
      cases i with
      | zero => omega
      | succ j =>
        simp only [store, List.getElem?_cons_succ]
        exact ih k d j (by omega)

/-- Reading back what was stored, when it fits in the object. -/
theorem store_field (mem : List Nat) (off : Nat) (d : List Nat)
    (h : off + d.length ≤ mem.length) : ((store mem off d).drop off).take d.length = d := by
  induction mem generalizing off d with
  | nil =>
    have : d = [] := by
      cases d with
      | nil => rfl
      | cons x xs => simp at h
    subst this; simp
  | cons m ms ih =>
    cases off with
    | zero =>
      cases d with
      | nil => simp
      | cons x xs =>
        have := ih 0 xs (by simp at h ⊢; omega)
        simp only [List.drop_zero] at this
        simp [store, this]
    | succ k =>
      have := ih k d (by simp at h; omega)
      simpa [store] using this

/-- The function `memset` keeps the size of the object. -/
theorem memset_length (s : List Nat) (c n : Nat) : (memset s c n).length = s.length := by
  induction s generalizing n with
  | nil => simp [memset]
  | cons b bs ih =>
    cases n with
    | zero => simp [memset]
    | succ k => simp [memset, ih]

/-- The first `n` bytes after `memset` hold the fill byte. -/
theorem memset_getElem?_of_lt (s : List Nat) (c n i : Nat) (h : i < n) (hi : i < s.length) :
    (memset s c n)[i]? = some (c % 256) := by
  induction s generalizing n i with
  | nil => simp at hi
  | cons b bs ih =>
    cases n with
    | zero => omega
    | succ k =>
      cases i with
      | zero => simp [memset]
      | succ j =>
        simp only [memset, List.getElem?_cons_succ]
        exact ih k j (by omega) (by simpa using hi)

/-- The bytes from offset `n` on are not touched by `memset`. -/
theorem memset_getElem?_of_ge (s : List Nat) (c n i : Nat) (h : n ≤ i) :
    (memset s c n)[i]? = s[i]? := by
  induction s generalizing n i with
  | nil => simp [memset]
  | cons b bs ih =>
    cases n with
    | zero => simp [memset]
    | succ k =>
      cases i with
      | zero => omega
      | succ j =>
        simp only [memset, List.getElem?_cons_succ]
        exact ih k j (by omega)

/-- The function `strncpy` writes exactly `n` bytes. -/
theorem strncpy_bytes_length (s : List Char) (n : Nat) : (strncpy_bytes s n).length = n := by
  induction n generalizing s with
  | zero => cases s <;> simp [strncpy_bytes]
  | succ k ih =>
    cases s with
    | nil => simp [strncpy_bytes, ih]
    | cons c cs =>
      simp only [strncpy_bytes]
      split <;> simp [ih]

/-- Copying the empty string writes NUL bytes only. -/
theorem strncpy_bytes_nil (n : Nat) : strncpy_bytes [] n = List.replicate n 0 := by
  induction n with
  | zero => simp [strncpy_bytes]
  | succ k ih => simp [strncpy_bytes, ih, List.replicate_succ]

/-- A string that fits is copied whole and padded with NUL bytes. -/
theorem strncpy_bytes_of_le (s : List Char) (n : Nat) (hs : ∀ c ∈ s, c.toNat ≠ 0)
    (h : s.length ≤ n) :
    strncpy_bytes s n = s.map Char.toNat ++ List.replicate (n - s.length) 0 := by
  induction s generalizing n with
  | nil => simp [strncpy_bytes_nil]
  | cons c cs ih =>
    cases n with
    | zero => simp at h
    | succ k =>
      have hc : c.toNat ≠ 0 := hs c (by simp)
      have := ih k (fun x hx => hs x (by simp [hx])) (by simpa using h)
      simp [strncpy_bytes, hc, this]

/-- A string that does not fit is cut after `n` characters, without NUL. -/
theorem strncpy_bytes_of_ge (s : List Char) (n : Nat) (hs : ∀ c ∈ s, c.toNat ≠ 0)
    (h : n ≤ s.length) :
    strncpy_bytes s n = (s.take n).map Char.toNat := by
  induction s generalizing n with
  | nil =>
    have : n = 0 := by simpa using h
    subst this; simp [strncpy_bytes]
  | cons c cs ih =>
    cases n with
    | zero => simp [strncpy_bytes]
    | succ k =>
      have hc : c.toNat ≠ 0 := hs c (by simp)
      have := ih k (fun x hx => hs x (by simp [hx])) (by simpa using h)
      simp [strncpy_bytes, hc, this]

/-- The request keeps the length of the storage. -/
theorem ioctl_request_length (H : Headers) (stack : List Nat) (btsak : btsak_s) :
    (ioctl_request H stack btsak).length = stack.length := by
  unfold ioctl_request strncpy
  rw [store_length, memset_length]

/-- The name of the request is what `strncpy` writes, when the member lies in
the storage. -/
theorem btr_name_ioctl_request (H : Headers) (stack : List Nat) (btsak : btsak_s)
    (hfield : H.offsetof_btr_name + H.HCI_DEVNAME_SIZE ≤ stack.length) :
    btr_name H (ioctl_request H stack btsak)
      = strncpy_bytes btsak.ifname.toList H.HCI_DEVNAME_SIZE := by
  unfold btr_name ioctl_request strncpy
  have hl := strncpy_bytes_length btsak.ifname.toList H.HCI_DEVNAME_SIZE
  have := store_field (memset stack 0 H.sizeof_bt_advertisebtreq_s) H.offsetof_btr_name
    (strncpy_bytes btsak.ifname.toList H.HCI_DEVNAME_SIZE)
    (by rw [hl, memset_length]; exact hfield)
  rw [hl] at this
  exact this

/-- Outside the name, the request is the storage after the `memset`. -/
theorem ioctl_request_outside_name (H : Headers) (stack : List Nat) (btsak : btsak_s) (i : Nat)
    (hi : i < H.offsetof_btr_name ∨ H.offsetof_btr_name + H.HCI_DEVNAME_SIZE ≤ i) :
    (ioctl_request H stack btsak)[i]? = (memset stack 0 H.sizeof_bt_advertisebtreq_s)[i]? := by
  unfold ioctl_request strncpy
  rcases hi with hi | hi
  · exact store_getElem?_of_lt _ _ _ _ hi
  · exact store_getElem?_of_ge _ _ _ _ (by rw [strncpy_bytes_length]; exact hi)

/-- When the `memset` covers the storage, every byte of the request outside
the name is zero. -/
theorem ioctl_request_zero_of_covered (H : Headers) (stack : List Nat) (btsak : btsak_s)
    (i : Nat) (hcov : stack.length ≤ H.sizeof_bt_advertisebtreq_s) (hlt : i < stack.length)
    (hi : i < H.offsetof_btr_name ∨ H.offsetof_btr_name + H.HCI_DEVNAME_SIZE ≤ i) :
    (ioctl_request H stack btsak)[i]? = some 0 := by
  rw [ioctl_request_outside_name H stack btsak i hi,
    memset_getElem?_of_lt stack 0 _ i (by omega) hlt]

/-- Past the length given to `memset`, every byte of the request outside the
name is the byte that the storage held before. -/
theorem ioctl_request_stale_of_short (H : Headers) (stack : List Nat) (btsak : btsak_s)
    (i : Nat) (hshort : H.sizeof_bt_advertisebtreq_s ≤ i)
    (hi : i < H.offsetof_btr_name ∨ H.offsetof_btr_name + H.HCI_DEVNAME_SIZE ≤ i) :
    (ioctl_request H stack btsak)[i]? = stack[i]? := by
  rw [ioctl_request_outside_name H stack btsak i hi, memset_getElem?_of_ge stack 0 _ i hshort]

/-- With a handle, the request is passed to `ioctl`. -/
theorem ioctl_mem_calls (H : Headers) (env : Env) (stack : List Nat) (btsak : btsak_s)
    (argv : List String) (h : argv[1]? ≠ some "-h") (hs : 0 ≤ env.btsak_socket btsak) :
    Effect.ioctl (env.btsak_socket btsak) H.SIOCGBTINFO (ioctl_request H stack btsak)
      ∈ (btsak_cmd_info H env stack btsak argv.length argv).calls := by
  rw [(cmd_info_calls H env stack btsak argv h).1, if_pos hs]
  simp

/-! ## Conversions -/

set_option maxRecDepth 1000000 in
/-- The conversion `%02x` of a byte writes its two hexadecimal digits. -/
theorem fmt_0x_2_byte : ∀ b : Fin 256,
    fmt_0x 2 b.val = String.mk [Nat.digitChar (b.val / 16), Nat.digitChar (b.val % 16)] := by
  decide

set_option maxRecDepth 1000000 in
/-- Reading the two digits of a byte back gives the byte. -/
theorem parse_digit : ∀ b : Fin 256,
    parse_octet (Nat.digitChar (b.val / 16)) (Nat.digitChar (b.val % 16)) = some b.val := by
  decide

/-- The conversion `%02x` of a number below 256. -/
theorem fmt_0x_2_of_lt (b : Nat) (h : b < 256) :
    fmt_0x 2 b = String.mk [Nat.digitChar (b / 16), Nat.digitChar (b % 16)] :=
  fmt_0x_2_byte ⟨b, h⟩

/-- The two digits of a number below 256, read back. -/
theorem parse_octet_of_lt (b : Nat) (h : b < 256) :
    parse_octet (Nat.digitChar (b / 16)) (Nat.digitChar (b % 16)) = some b :=
  parse_digit ⟨b, h⟩

/-- The digits of the conversion are lower-case. -/
theorem digitChar_lower : ∀ d : Fin 16, Nat.digitChar d.val ∈ "0123456789abcdef".toList := by
  decide

/-- The expression `btreq.btr_bdaddr.val[i]` is byte `i` of the member. -/
theorem bdaddr_val_of_field (H : Headers) (arg bs : List Nat) (i b : Nat)
    (hf : (arg.drop H.offsetof_btr_bdaddr).take 6 = bs) (hi : i < 6)
    (hb : bs[i]? = some b) (hlt : b < 256) : btr_bdaddr_val H arg i = b := by
  have h1 : arg[H.offsetof_btr_bdaddr + i]? = some b := by
    rw [← hb, ← hf, List.getElem?_take_of_lt hi, List.getElem?_drop]
  unfold btr_bdaddr_val
  rw [List.getD_eq_getElem?_getD, h1]
  simp [Nat.mod_eq_of_lt hlt]

/-! ## The help flag -/

/-- C1: when `argv[1]` is exactly `-h`, whatever the context and the rest of
the argument vector, `btsak_cmd_info` writes the usage text to `stderr`,
writes nothing to `stdout`, ends the process with `EXIT_SUCCESS`, and calls
the socket helper, `ioctl` and `close` zero times each. -/
theorem btsak_cmd_info_help (H : Headers) (env : Env) (stack : List Nat) (btsak : btsak_s)
    (argv : List String) (h : argv[1]? = some "-h") :
    (btsak_cmd_info H env stack btsak argv.length argv).stderr
      = argv.getD 0 "" ++ ":\tEnable security (encryption) for a connection:\n\tIf device is paired, key encryption will be enabled. If the link\n\tis already encrypted with sufficiently strong key this function\n\tdoes nothing.\n\n\tIf the device is not paired pairing will be initiated. If the device\n\tis paired and keys are too weak but input output capabilities allow\n\tfor strong enough keys pairing will be initiated.\n\n\tThis function may return error if required level of security is not\n\tpossible to achieve due to local or remote device limitation (eg input\n\toutput capabilities).\n\nUsage:\n\n\t" ++ btsak.progname ++ " <ifname> " ++ argv.getD 0 ""
        ++ " [-h] <addr> <addr-type> <level>\n\nWhere:\n\n\t<addr>\t- The 6-byte address of the connected peer\n\t<addr-type>\t- Either \"public\" or \"random\"\n\t<level>\t- Security level, on of:\n\n\t\tlow\t- No encryption and no authentication\n\t\tmedium\t- Encryption and no authentication (no MITM)\n\t\thigh\t- Encryption and authentication (MITM)\n\t\tfips\t- Authenticated LE secure connections and encryption\n"
    ∧ (btsak_cmd_info H env stack btsak argv.length argv).stdout = ""
    ∧ (btsak_cmd_info H env stack btsak argv.length argv).exited = some EXIT_SUCCESS
    ∧ EXIT_SUCCESS = 0
    ∧ (btsak_cmd_info H env stack btsak argv.length argv).calls.countP Effect.isSocket = 0
    ∧ (btsak_cmd_info H env stack btsak argv.length argv).calls.countP Effect.isIoctl = 0
    ∧ (btsak_cmd_info H env stack btsak argv.length argv).calls.countP Effect.isClose = 0 := by
  rw [cmd_info_help H env stack btsak argv h, showusage_eq]
  refine ⟨rfl, rfl, rfl, rfl, rfl, rfl, rfl⟩

set_option maxRecDepth 100000 in
/-- C1 at the arguments `info -h` of the program `bt`. -/
theorem btsak_cmd_info_help_witness :
    ["info", "-h"][1]? = some "-h"
    ∧ (btsak_cmd_info exHeaders exEnvOk exStack exContext 2 ["info", "-h"]).stderr
      = "info:\tEnable security (encryption) for a connection:\n\tIf device is paired, key encryption will be enabled. If the link\n\tis already encrypted with sufficiently strong key this function\n\tdoes nothing.\n\n\tIf the device is not paired pairing will be initiated. If the device\n\tis paired and keys are too weak but input output capabilities allow\n\tfor strong enough keys pairing will be initiated.\n\n\tThis function may return error if required level of security is not\n\tpossible to achieve due to local or remote device limitation (eg input\n\toutput capabilities).\n\nUsage:\n\n\tbt <ifname> info [-h] <addr> <addr-type> <level>\n\nWhere:\n\n\t<addr>\t- The 6-byte address of the connected peer\n\t<addr-type>\t- Either \"public\" or \"random\"\n\t<level>\t- Security level, on of:\n\n\t\tlow\t- No encryption and no authentication\n\t\tmedium\t- Encryption and no authentication (no MITM)\n\t\thigh\t- Encryption and authentication (MITM)\n\t\tfips\t- Authenticated LE secure connections and encryption\n"
    ∧ (btsak_cmd_info exHeaders exEnvOk exStack exContext 2 ["info", "-h"]).stdout = ""
    ∧ (btsak_cmd_info exHeaders exEnvOk exStack exContext 2 ["info", "-h"]).exited = some 0
    ∧ (btsak_cmd_info exHeaders exEnvOk exStack exContext 2
        ["info", "-h"]).calls.countP Effect.isSocket = 0
    ∧ (btsak_cmd_info exHeaders exEnvOk exStack exContext 2
        ["info", "-h"]).calls.countP Effect.isIoctl = 0
    ∧ (btsak_cmd_info exHeaders exEnvOk exStack exContext 2
        ["info", "-h"]).calls.countP Effect.isClose = 0 :=
  have t := btsak_cmd_info_help exHeaders exEnvOk exStack exContext ["info", "-h"] (by decide)
  ⟨by decide, t.1, t.2.1, t.2.2.1, t.2.2.2.2.1, t.2.2.2.2.2.1, t.2.2.2.2.2.2⟩

/-! ## Failures -/

/-- C3: without `-h`, when the socket helper returns a handle and `ioctl`
returns a negative value with `errno` equal to `e`, `stderr` receives exactly
the line `ERROR:  ioctl(SIOCGBTINFO) failed: <e>` with `e` in decimal, and
`stdout` stays empty. -/
theorem btsak_cmd_info_ioctl_failure (H : Headers) (env : Env) (stack : List Nat)
    (btsak : btsak_s) (argv : List String) (e : Int)
    (h : argv[1]? ≠ some "-h") (hs : 0 ≤ env.btsak_socket btsak)
    (hr : (ioctl_reply H env stack btsak).ret < 0)
    (he : (ioctl_reply H env stack btsak).errno = e) :
    (btsak_cmd_info H env stack btsak argv.length argv).stderr
      = "ERROR:  ioctl(SIOCGBTINFO) failed: " ++ toString e ++ "\n"
    ∧ (btsak_cmd_info H env stack btsak argv.length argv).stdout = "" := by
  rw [cmd_info_failed_ioctl H env stack btsak argv h hs hr, he]
  exact ⟨rfl, rfl⟩

/-- C3 at the error code 5. -/
theorem btsak_cmd_info_ioctl_failure_witness :
    ["info"][1]? ≠ some "-h"
    ∧ 0 ≤ exEnvIoctlFails.btsak_socket exContext
    ∧ (ioctl_reply exHeaders exEnvIoctlFails exStack exContext).ret < 0
    ∧ (ioctl_reply exHeaders exEnvIoctlFails exStack exContext).errno = 5
    ∧ (btsak_cmd_info exHeaders exEnvIoctlFails exStack exContext 1 ["info"]).stderr
      = "ERROR:  ioctl(SIOCGBTINFO) failed: 5\n"
    ∧ (btsak_cmd_info exHeaders exEnvIoctlFails exStack exContext 1 ["info"]).stdout = "" :=
  ⟨by decide, by decide, by decide, rfl,
    btsak_cmd_info_ioctl_failure exHeaders exEnvIoctlFails exStack exContext ["info"] 5
      (by decide) (by decide) (by decide) rfl⟩

/-- C4: without `-h`, when the socket helper returns a negative handle, no
`ioctl` is issued, nothing is written to `stdout` or `stderr`, the process
does not exit, and the calls are the one call of the socket helper followed by
one `close` of the returned handle. -/
theorem btsak_cmd_info_socket_failure (H : Headers) (env : Env) (stack : List Nat)
    (btsak : btsak_s) (argv : List String)
    (h : argv[1]? ≠ some "-h") (hs : env.btsak_socket btsak < 0) :
    (btsak_cmd_info H env stack btsak argv.length argv).calls
      = [Effect.btsak_socket, Effect.close (env.btsak_socket btsak)]
    ∧ (btsak_cmd_info H env stack btsak argv.length argv).calls.countP Effect.isIoctl = 0
    ∧ (btsak_cmd_info H env stack btsak argv.length argv).stdout = ""
    ∧ (btsak_cmd_info H env stack btsak argv.length argv).stderr = ""
    ∧ (btsak_cmd_info H env stack btsak argv.length argv).exited = none := by
  rw [cmd_info_failed_socket H env stack btsak argv h hs]
  exact ⟨rfl, rfl, rfl, rfl, rfl⟩

/-- C4 when the socket helper returns `-1`. -/
theorem btsak_cmd_info_socket_failure_witness :
    ["info"][1]? ≠ some "-h"
    ∧ exEnvNoSocket.btsak_socket exContext < 0
    ∧ (btsak_cmd_info exHeaders exEnvNoSocket exStack exContext 1 ["info"]).calls
      = [Effect.btsak_socket, Effect.close (-1)]
    ∧ (btsak_cmd_info exHeaders exEnvNoSocket exStack exContext 1
        ["info"]).calls.countP Effect.isIoctl = 0
    ∧ (btsak_cmd_info exHeaders exEnvNoSocket exStack exContext 1 ["info"]).stdout = ""
    ∧ (btsak_cmd_info exHeaders exEnvNoSocket exStack exContext 1 ["info"]).stderr = ""
    ∧ (btsak_cmd_info exHeaders exEnvNoSocket exStack exContext 1 ["info"]).exited = none :=
  ⟨by decide, by decide,
    btsak_cmd_info_socket_failure exHeaders exEnvNoSocket exStack exContext ["info"]
      (by decide) (by decide)⟩

/-! ## The socket -/

/-- C5: without `-h`, whatever the socket helper and `ioctl` answer, the
calls of `btsak_cmd_info` hold exactly one call of the socket helper (the
first call), at most one `ioctl` (exactly one when the handle is not negative,
none when it is), and exactly one `close`, which is the last call, is applied
to the handle the socket helper returned, and is followed by the return of the
function (the process does not exit). -/
theorem btsak_cmd_info_socket_discipline (H : Headers) (env : Env) (stack : List Nat)
    (btsak : btsak_s) (argv : List String) (h : argv[1]? ≠ some "-h") :
    (btsak_cmd_info H env stack btsak argv.length argv).calls.countP Effect.isSocket = 1
    ∧ (btsak_cmd_info H env stack btsak argv.length argv).calls.head? = some Effect.btsak_socket
    ∧ (btsak_cmd_info H env stack btsak argv.length argv).calls.countP Effect.isIoctl ≤ 1
    ∧ (0 ≤ env.btsak_socket btsak →
        (btsak_cmd_info H env stack btsak argv.length argv).calls.countP Effect.isIoctl = 1)
    ∧ (env.btsak_socket btsak < 0 →
        (btsak_cmd_info H env stack btsak argv.length argv).calls.countP Effect.isIoctl = 0)
    ∧ (btsak_cmd_info H env stack btsak argv.length argv).calls.countP Effect.isClose = 1
    ∧ (btsak_cmd_info H env stack btsak argv.length argv).calls.getLast?
        = some (Effect.close (env.btsak_socket btsak))
    ∧ (btsak_cmd_info H env stack btsak argv.length argv).exited = none := by
  obtain ⟨hc, hx⟩ := cmd_info_calls H env stack btsak argv h
  rw [hc, hx]
  by_cases hs : 0 ≤ env.btsak_socket btsak
  · rw [if_pos hs]
    refine ⟨rfl, rfl, ?_, fun _ => rfl, fun hn => ?_, rfl, rfl, rfl⟩
    · exact Nat.le_of_eq rfl
    · omega
  · rw [if_neg hs]
    refine ⟨rfl, rfl, ?_, fun hn => ?_, fun _ => rfl, rfl, rfl, rfl⟩
    · exact Nat.zero_le 1
    · omega

/-- C5 on a run whose `ioctl` fails. -/
theorem btsak_cmd_info_socket_discipline_witness :
    ["info"][1]? ≠ some "-h"
    ∧ (btsak_cmd_info exHeaders exEnvIoctlFails exStack exContext 1
        ["info"]).calls.countP Effect.isSocket = 1
    ∧ (btsak_cmd_info exHeaders exEnvIoctlFails exStack exContext 1
        ["info"]).calls.countP Effect.isIoctl = 1
    ∧ (btsak_cmd_info exHeaders exEnvIoctlFails exStack exContext 1
        ["info"]).calls.countP Effect.isClose = 1
    ∧ (btsak_cmd_info exHeaders exEnvIoctlFails exStack exContext 1
        ["info"]).calls.getLast? = some (Effect.close 3) :=
  have t := btsak_cmd_info_socket_discipline exHeaders exEnvIoctlFails exStack exContext
    ["info"] (by decide)
  ⟨by decide, t.1, t.2.2.2.1 (by decide), t.2.2.2.2.2.1, t.2.2.2.2.2.2.1⟩

/-! ## The arguments -/

/-- C8: arguments other than the help flag are ignored. For the same headers,
context, storage and answers of the collaborators, two argument vectors
neither of which has `-h` as `argv[1]` (the empty vector included) give the
same world: the same `stdout` and `stderr`, the same calls with the same
request bytes, and the same way of ending. -/
theorem btsak_cmd_info_ignores_arguments (H : Headers) (env : Env) (stack : List Nat)
    (btsak : btsak_s) (argv argv2 : List String)
    (h : argv[1]? ≠ some "-h") (h2 : argv2[1]? ≠ some "-h") :
    btsak_cmd_info H env stack btsak argv.length argv
      = btsak_cmd_info H env stack btsak argv2.length argv2 := by
  unfold btsak_cmd_info
  simp only [if_neg (help_not_taken argv h), if_neg (help_not_taken argv2 h2)]

/-- C8 at the empty vector and at a vector with three arguments. -/
theorem btsak_cmd_info_ignores_arguments_witness :
    ([] : List String)[1]? ≠ some "-h"
    ∧ ["info", "x", "-h"][1]? ≠ some "-h"
    ∧ btsak_cmd_info exHeaders exEnvOk exStack exContext 0 []
      = btsak_cmd_info exHeaders exEnvOk exStack exContext 3 ["info", "x", "-h"] :=
  ⟨by decide, by decide,
    btsak_cmd_info_ignores_arguments exHeaders exEnvOk exStack exContext [] ["info", "x", "-h"]
      (by decide) (by decide)⟩

/-! ## The device address -/

/-- C7: without `-h`, when the socket helper and `ioctl` succeed and the reply
record holds the six bytes `b0 .. b5` (each below 256) in its member
`btr_bdaddr`, the second line of `stdout` is `BDAddr: ` followed by a text of
exactly 17 characters: for each byte, in stored order, its two lower-case
hexadecimal digits (high digit first, so padded with a zero), the six octets
separated by five colons; reading the six octets back gives `b0 .. b5`. -/
theorem btsak_cmd_info_bdaddr (H : Headers) (env : Env) (stack : List Nat) (btsak : btsak_s)
    (argv : List String) (b0 b1 b2 b3 b4 b5 : Nat)
    (h : argv[1]? ≠ some "-h") (hs : 0 ≤ env.btsak_socket btsak)
    (hr : 0 ≤ (ioctl_reply H env stack btsak).ret)
    (hb : ((ioctl_reply H env stack btsak).arg.drop H.offsetof_btr_bdaddr).take 6
      = [b0, b1, b2, b3, b4, b5])
    (hlt : ∀ b ∈ [b0, b1, b2, b3, b4, b5], b < 256) :
    ∃ addr rest : String,
      (btsak_cmd_info H env stack btsak argv.length argv).stdout
        = "Device: " ++ btsak.ifname ++ "\nBDAddr: " ++ addr ++ "\n" ++ rest
      ∧ addr.length = 17
      ∧ addr.toList =
        [Nat.digitChar (b0 / 16), Nat.digitChar (b0 % 16), ':',
         Nat.digitChar (b1 / 16), Nat.digitChar (b1 % 16), ':',
         Nat.digitChar (b2 / 16), Nat.digitChar (b2 % 16), ':',
         Nat.digitChar (b3 / 16), Nat.digitChar (b3 % 16), ':',
         Nat.digitChar (b4 / 16), Nat.digitChar (b4 % 16), ':',
         Nat.digitChar (b5 / 16), Nat.digitChar (b5 % 16)]
      ∧ (∀ c ∈ addr.toList, c = ':' ∨ c ∈ "0123456789abcdef".toList)
      ∧ parse_bdaddr addr.toList = some [b0, b1, b2, b3, b4, b5] := by
  have l0 : b0 < 256 := hlt b0 (by simp)
  have l1 : b1 < 256 := hlt b1 (by simp)
  have l2 : b2 < 256 := hlt b2 (by simp)
  have l3 : b3 < 256 := hlt b3 (by simp)
  have l4 : b4 < 256 := hlt b4 (by simp)
  have l5 : b5 < 256 := hlt b5 (by simp)
  have v0 := bdaddr_val_of_field H _ _ 0 b0 hb (by omega) rfl l0
  have v1 := bdaddr_val_of_field H _ _ 1 b1 hb (by omega) rfl l1
  have v2 := bdaddr_val_of_field H _ _ 2 b2 hb (by omega) rfl l2
  have v3 := bdaddr_val_of_field H _ _ 3 b3 hb (by omega) rfl l3
  have v4 := bdaddr_val_of_field H _ _ 4 b4 hb (by omega) rfl l4
  have v5 := bdaddr_val_of_field H _ _ 5 b5 hb (by omega) rfl l5
  refine ⟨String.mk [Nat.digitChar (b0 / 16), Nat.digitChar (b0 % 16), ':',
         Nat.digitChar (b1 / 16), Nat.digitChar (b1 % 16), ':',
         Nat.digitChar (b2 / 16), Nat.digitChar (b2 % 16), ':',
         Nat.digitChar (b3 / 16), Nat.digitChar (b3 % 16), ':',
         Nat.digitChar (b4 / 16), Nat.digitChar (b4 % 16), ':',
         Nat.digitChar (b5 / 16), Nat.digitChar (b5 % 16)],
    "Flags:  " ++ fmt_0x 4 btsak.btr_flags
        ++ "\nFree:   " ++ fmt_u btsak.btr_num_cmd
        ++ "\n  ACL:  " ++ fmt_u btsak.btri_num_acl
        ++ "\n  SCO:  " ++ fmt_u btsak.btri_num_sco
        ++ "\nMax:\n  ACL:  " ++ fmt_u btsak.btr_max_acl
        ++ "\n  SCO:  " ++ fmt_u btsak.btr_max_sco
        ++ "\nMTU:\n  ACL:  " ++ fmt_u btsak.btr_acl_mtu
        ++ "\n  SCO:  " ++ fmt_u btsak.btr_sco_mtu
        ++ "\nPolicy: " ++ fmt_u btsak.btr_link_policy
        ++ "\nType:   " ++ fmt_u btsak.btr_packet_type ++ "\n", ?_, rfl, rfl, ?_, ?_⟩
  · rw [cmd_info_success H env stack btsak argv h hs hr, print_status_eq, v0, v1, v2, v3, v4, v5,
      fmt_0x_2_of_lt b0 l0, fmt_0x_2_of_lt b1 l1, fmt_0x_2_of_lt b2 l2, fmt_0x_2_of_lt b3 l3,
      fmt_0x_2_of_lt b4 l4, fmt_0x_2_of_lt b5 l5]
    simp only [World.call]
    apply String.ext
    simp only [String.data_append, List.append_assoc]
    rfl
  · intro c hc
    have hi (b : Nat) (hb : b < 256) :
        Nat.digitChar (b / 16) ∈ "0123456789abcdef".toList :=
      digitChar_lower ⟨b / 16, by omega⟩
    have lo (b : Nat) : Nat.digitChar (b % 16) ∈ "0123456789abcdef".toList :=
      digitChar_lower ⟨b % 16, Nat.mod_lt _ (by decide)⟩
    simp only [String.toList, List.mem_cons, List.mem_nil_iff, or_false] at hc
    rcases hc with e | e | e | e | e | e | e | e | e | e | e | e | e | e | e | e | e <;>
      subst e <;>
      first
        | exact Or.inl rfl
        | exact Or.inr (lo _)
        | exact Or.inr (hi _ l0)
        | exact Or.inr (hi _ l1)
        | exact Or.inr (hi _ l2)
        | exact Or.inr (hi _ l3)
        | exact Or.inr (hi _ l4)
        | exact Or.inr (hi _ l5)
  · simp only [String.toList, parse_bdaddr, parse_octet_of_lt _ l0, parse_octet_of_lt _ l1,
      parse_octet_of_lt _ l2, parse_octet_of_lt _ l3, parse_octet_of_lt _ l4,
      parse_octet_of_lt _ l5]
    simp

/-- C7 at the address `00:11:22:33:44:55`. -/
theorem btsak_cmd_info_bdaddr_witness :
    ["info"][1]? ≠ some "-h"
    ∧ 0 ≤ exEnvOk.btsak_socket exContext
    ∧ 0 ≤ (ioctl_reply exHeaders exEnvOk exStack exContext).ret
    ∧ ((ioctl_reply exHeaders exEnvOk exStack exContext).arg.drop
        exHeaders.offsetof_btr_bdaddr).take 6 = [0x00, 0x11, 0x22, 0x33, 0x44, 0x55]
    ∧ (∀ b ∈ [0x00, 0x11, 0x22, 0x33, 0x44, 0x55], b < 256)
    ∧ ∃ addr rest : String,
      (btsak_cmd_info exHeaders exEnvOk exStack exContext 1 ["info"]).stdout
        = "Device: bnep0\nBDAddr: " ++ addr ++ "\n" ++ rest
      ∧ addr.length = 17
      ∧ addr.toList = "00:11:22:33:44:55".toList
      ∧ parse_bdaddr addr.toList = some [0x00, 0x11, 0x22, 0x33, 0x44, 0x55] :=
  ⟨by decide, by decide, by decide, by decide, by decide,
    (btsak_cmd_info_bdaddr exHeaders exEnvOk exStack exContext ["info"]
      0x00 0x11 0x22 0x33 0x44 0x55 (by decide) (by decide) (by decide) (by decide)
      (by decide)).elim
      fun addr t => t.elim fun rest t => ⟨addr, rest, t.1, t.2.1, t.2.2.1, t.2.2.2.2⟩⟩

/-! ## The name of the interface -/

/-- C6: without `-h` and with a handle, when the interface name is a C string
of at most `HCI_DEVNAME_SIZE` characters and the member `btr_name` lies in the
record, the request passed to `ioctl` holds in `btr_name` the bytes of the
name from offset 0 of the member, followed by zero bytes only up to the end of
the member; the copy writes `HCI_DEVNAME_SIZE` bytes, the record keeps its
size, and every byte outside the member is the byte that was there before the
copy. -/
theorem ioctl_request_name_copied (H : Headers) (env : Env) (stack : List Nat)
    (btsak : btsak_s) (argv : List String)
    (h : argv[1]? ≠ some "-h") (hs : 0 ≤ env.btsak_socket btsak)
    (hc : IsCString btsak.ifname)
    (hlen : btsak.ifname.length ≤ H.HCI_DEVNAME_SIZE)
    (hstack : stack.length = H.sizeof_btreq_s)
    (hfield : H.offsetof_btr_name + H.HCI_DEVNAME_SIZE ≤ H.sizeof_btreq_s) :
    Effect.ioctl (env.btsak_socket btsak) H.SIOCGBTINFO (ioctl_request H stack btsak)
      ∈ (btsak_cmd_info H env stack btsak argv.length argv).calls
    ∧ btr_name H (ioctl_request H stack btsak)
      = btsak.ifname.toList.map Char.toNat
        ++ List.replicate (H.HCI_DEVNAME_SIZE - btsak.ifname.length) 0
    ∧ (strncpy_bytes btsak.ifname.toList H.HCI_DEVNAME_SIZE).length = H.HCI_DEVNAME_SIZE
    ∧ (ioctl_request H stack btsak).length = H.sizeof_btreq_s
    ∧ ∀ i, i < H.offsetof_btr_name ∨ H.offsetof_btr_name + H.HCI_DEVNAME_SIZE ≤ i →
        (ioctl_request H stack btsak)[i]?
          = (memset stack 0 H.sizeof_bt_advertisebtreq_s)[i]? := by
  refine ⟨ioctl_mem_calls H env stack btsak argv h hs, ?_, strncpy_bytes_length _ _, ?_,
    fun i hi => ioctl_request_outside_name H stack btsak i hi⟩
  · rw [btr_name_ioctl_request H stack btsak (by omega),
      strncpy_bytes_of_le _ _ hc (by simpa using hlen)]
    simp
  · rw [ioctl_request_length, hstack]

/-- C6 at the name `bnep0` and a name member of 32 bytes. -/
theorem ioctl_request_name_copied_witness :
    ["info"][1]? ≠ some "-h"
    ∧ 0 ≤ exEnvOk.btsak_socket exContext
    ∧ IsCString exContext.ifname
    ∧ exContext.ifname.length ≤ exHeaders.HCI_DEVNAME_SIZE
    ∧ exStack.length = exHeaders.sizeof_btreq_s
    ∧ exHeaders.offsetof_btr_name + exHeaders.HCI_DEVNAME_SIZE ≤ exHeaders.sizeof_btreq_s
    ∧ Effect.ioctl 3 1 (ioctl_request exHeaders exStack exContext)
      ∈ (btsak_cmd_info exHeaders exEnvOk exStack exContext 1 ["info"]).calls
    ∧ btr_name exHeaders (ioctl_request exHeaders exStack exContext)
      = [98, 110, 101, 112, 48] ++ List.replicate 27 0 :=
  have t := ioctl_request_name_copied exHeaders exEnvOk exStack exContext ["info"]
    (by decide) (by decide) (by decide) (by decide) (by decide) (by decide)
  ⟨by decide, by decide, by decide, by decide, by decide, by decide, t.1, t.2.1⟩

/-- C10: without `-h` and with a handle, when the interface name is a C
string of `HCI_DEVNAME_SIZE` characters or more and the member `btr_name` lies
in the record, the request passed to `ioctl` holds in `btr_name` exactly the
first `HCI_DEVNAME_SIZE` bytes of the name, none of which is zero, so the
member holds no terminator; and when `ioctl` succeeds the first line of
`stdout` is `Device: ` followed by the whole name. -/
theorem ioctl_request_name_truncated (H : Headers) (env : Env) (stack : List Nat)
    (btsak : btsak_s) (argv : List String)
    (h : argv[1]? ≠ some "-h") (hs : 0 ≤ env.btsak_socket btsak)
    (hc : IsCString btsak.ifname)
    (hlen : H.HCI_DEVNAME_SIZE ≤ btsak.ifname.length)
    (hstack : stack.length = H.sizeof_btreq_s)
    (hfield : H.offsetof_btr_name + H.HCI_DEVNAME_SIZE ≤ H.sizeof_btreq_s) :
    Effect.ioctl (env.btsak_socket btsak) H.SIOCGBTINFO (ioctl_request H stack btsak)
      ∈ (btsak_cmd_info H env stack btsak argv.length argv).calls
    ∧ btr_name H (ioctl_request H stack btsak)
      = (btsak.ifname.toList.take H.HCI_DEVNAME_SIZE).map Char.toNat
    ∧ (btr_name H (ioctl_request H stack btsak)).length = H.HCI_DEVNAME_SIZE
    ∧ 0 ∉ btr_name H (ioctl_request H stack btsak)
    ∧ (0 ≤ (ioctl_reply H env stack btsak).ret →
        ∃ rest : String, (btsak_cmd_info H env stack btsak argv.length argv).stdout
          = "Device: " ++ btsak.ifname ++ "\nBDAddr: " ++ rest) := by
  have hn : btr_name H (ioctl_request H stack btsak)
      = (btsak.ifname.toList.take H.HCI_DEVNAME_SIZE).map Char.toNat := by
    rw [btr_name_ioctl_request H stack btsak (by omega),
      strncpy_bytes_of_ge _ _ hc (by simpa using hlen)]
  refine ⟨ioctl_mem_calls H env stack btsak argv h hs, hn, ?_, ?_, fun hr => ?_⟩
  · rw [btr_name_ioctl_request H stack btsak (by omega), strncpy_bytes_length]
  · rw [hn]
    intro hz
    obtain ⟨c, hcm, hc0⟩ := List.mem_map.1 hz
    exact hc c (List.mem_of_mem_take hcm) hc0
  · rw [cmd_info_success H env stack btsak argv h hs hr, print_status_eq]
    simp only [World.call, String.append_assoc]
    exact ⟨_, rfl⟩

/-- C10 at a name of 39 characters and a name member of 32 bytes. -/
theorem ioctl_request_name_truncated_witness :
    ["info"][1]? ≠ some "-h"
    ∧ 0 ≤ exEnvOk.btsak_socket exContextLongName
    ∧ IsCString exContextLongName.ifname
    ∧ exHeaders.HCI_DEVNAME_SIZE ≤ exContextLongName.ifname.length
    ∧ exStack.length = exHeaders.sizeof_btreq_s
    ∧ exHeaders.offsetof_btr_name + exHeaders.HCI_DEVNAME_SIZE ≤ exHeaders.sizeof_btreq_s
    ∧ btr_name exHeaders (ioctl_request exHeaders exStack exContextLongName)
      = ("bluetooth-controller-interface-n".toList).map Char.toNat
    ∧ 0 ∉ btr_name exHeaders (ioctl_request exHeaders exStack exContextLongName)
    ∧ ∃ rest : String,
        (btsak_cmd_info exHeaders exEnvOk exStack exContextLongName 1 ["info"]).stdout
          = "Device: bluetooth-controller-interface-number-0\nBDAddr: " ++ rest :=
  have t := ioctl_request_name_truncated exHeaders exEnvOk exStack exContextLongName ["info"]
    (by decide) (by decide) (by decide) (by decide) (by decide) (by decide)
  ⟨by decide, by decide, by decide, by decide, by decide, by decide, t.2.1, t.2.2.2.1,
    t.2.2.2.2 (by decide)⟩

/-! ## The zeroing of the request -/

/-- C9 (the code departs from it): the length given to `memset` is the size of
`struct bt_advertisebtreq_s`, not of `struct btreq_s`. When the former is 32
bytes and the record 56 bytes, and the storage held `0xaa` everywhere, the
request passed to `ioctl` holds the name `bnep0`, 27 zero bytes, and then 24
bytes `0xaa` that are outside the name and not zero. -/
theorem btsak_cmd_info_request_not_zeroed :
    (btsak_cmd_info exHeadersShortMemset exEnvOk exStack exContext 1 ["info"]).calls =
      [Effect.btsak_socket,
       Effect.ioctl 3 1
        ([98, 110, 101, 112, 48] ++ List.replicate 27 0 ++ List.replicate 24 0xaa),
       Effect.close 3]
    ∧ exHeadersShortMemset.offsetof_btr_name + exHeadersShortMemset.HCI_DEVNAME_SIZE ≤ 32
    ∧ (ioctl_request exHeadersShortMemset exStack exContext)[32]? = some 0xaa := by
  decide

/-! ## The status block -/

set_option maxRecDepth 100000 in
/-- The status block of the scenario, when the members of the context hold
the values of the scenario. -/
theorem status_block_scenario :
    (btsak_cmd_info exHeaders exEnvScenario exStack exContext 1 ["info"]).stdout
      = "Device: bnep0\nBDAddr: 00:11:22:33:44:55\nFlags:  0001\nFree:   8\n  ACL:  1\n  SCO:  0\nMax:\n  ACL:  4\n  SCO:  1\nMTU:\n  ACL:  672\n  SCO:  64\nPolicy: 0\nType:   0\n" := by
  decide

/-- The status block, in general: only the address comes from the reply, the
ten numbers after it are members of the context. -/
theorem status_block_eq (H : Headers) (env : Env) (stack : List Nat) (btsak : btsak_s)
    (argv : List String) (h : argv[1]? ≠ some "-h") (hs : 0 ≤ env.btsak_socket btsak)
    (hr : 0 ≤ (ioctl_reply H env stack btsak).ret) :
    (btsak_cmd_info H env stack btsak argv.length argv).stdout
      = "Device: " ++ btsak.ifname
        ++ "\nBDAddr: " ++ fmt_0x 2 (btr_bdaddr_val H (ioctl_reply H env stack btsak).arg 0)
        ++ ":" ++ fmt_0x 2 (btr_bdaddr_val H (ioctl_reply H env stack btsak).arg 1)
        ++ ":" ++ fmt_0x 2 (btr_bdaddr_val H (ioctl_reply H env stack btsak).arg 2)
        ++ ":" ++ fmt_0x 2 (btr_bdaddr_val H (ioctl_reply H env stack btsak).arg 3)
        ++ ":" ++ fmt_0x 2 (btr_bdaddr_val H (ioctl_reply H env stack btsak).arg 4)
        ++ ":" ++ fmt_0x 2 (btr_bdaddr_val H (ioctl_reply H env stack btsak).arg 5)
        ++ "\nFlags:  " ++ fmt_0x 4 btsak.btr_flags
        ++ "\nFree:   " ++ fmt_u btsak.btr_num_cmd
        ++ "\n  ACL:  " ++ fmt_u btsak.btri_num_acl
        ++ "\n  SCO:  " ++ fmt_u btsak.btri_num_sco
        ++ "\nMax:\n  ACL:  " ++ fmt_u btsak.btr_max_acl
        ++ "\n  SCO:  " ++ fmt_u btsak.btr_max_sco
        ++ "\nMTU:\n  ACL:  " ++ fmt_u btsak.btr_acl_mtu
        ++ "\n  SCO:  " ++ fmt_u btsak.btr_sco_mtu
        ++ "\nPolicy: " ++ fmt_u btsak.btr_link_policy
        ++ "\nType:   " ++ fmt_u btsak.btr_packet_type ++ "\n" := by
  rw [cmd_info_success H env stack btsak argv h hs hr, print_status_eq]
  rfl

set_option maxRecDepth 100000 in
/-- C2 (the code departs from it): the ten numbers of the status block are
read from the context `btsak`, not from the reply record. For the interface
`bnep0`, when `ioctl` succeeds with the reply of the scenario (address
`00 11 22 33 44 55`, flags `0x0001`, 8, 1, 0, 4, 1, 672, 64, 0, 0) and the
members of the context hold `0xbeef`, 70, 71, 72, 73, 74, 75, 76, 77, 78,
`stdout` shows the address of the reply and the numbers of the context, which
is not the block of the scenario. -/
theorem btsak_cmd_info_status_from_context :
    (ioctl_reply exHeaders exEnvScenario exStack exContextOther).ret = 0
    ∧ (ioctl_reply exHeaders exEnvScenario exStack exContextOther).arg.drop 32
      = [0x00, 0x11, 0x22, 0x33, 0x44, 0x55, 0x01, 0x00, 8, 0, 1, 0, 0, 0, 4, 0, 1, 0,
         0xa0, 0x02, 64, 0, 0, 0]
    ∧ (btsak_cmd_info exHeaders exEnvScenario exStack exContextOther 1 ["info"]).stdout
      = "Device: bnep0\nBDAddr: 00:11:22:33:44:55\nFlags:  beef\nFree:   70\n  ACL:  71\n  SCO:  72\nMax:\n  ACL:  73\n  SCO:  74\nMTU:\n  ACL:  75\n  SCO:  76\nPolicy: 77\nType:   78\n"
    ∧ (btsak_cmd_info exHeaders exEnvScenario exStack exContextOther 1 ["info"]).stdout
      ≠ "Device: bnep0\nBDAddr: 00:11:22:33:44:55\nFlags:  0001\nFree:   8\n  ACL:  1\n  SCO:  0\nMax:\n  ACL:  4\n  SCO:  1\nMTU:\n  ACL:  672\n  SCO:  64\nPolicy: 0\nType:   0\n" := by
  decide

end Btsak
